import Mathlib

/-!
Verification of the serialization pipeline of the python-rs driver.

The development shallowly embeds the three serializer implementations of the
repository and the value normalizer:

* `CellW` — `src/python/scylla/serializer.py` (the `PyCellWriter`-based
  serializers used by the live session path).  The cell writer itself is
  provided by the Rust extension and is not under `src/`; its byte-level
  behaviour (null marker, length prefix, deferred length patch-back) is
  modelled from the spec, §4.5.
* `SLZ` — `src/python/scylla/serializalize/serializer.py` (pure-Python
  serializers returning `bytes`).
* `Ser` — `src/python/scylla/serialize/serialize.py` together with
  `src/python/scylla/serialize/column_type.py` (typed wrapper values).
* `Session` — `_normalize_values` from `src/python/scylla/session.py`.

Bytes are modelled as `List Nat` (each entry `< 256` by construction of the
packing helpers).  Python exceptions are modelled structurally by `PyErr`:
the constructor identifies the exception class and the message content that
the claims talk about; f-string formatting that merely embeds the `repr` of
another object is carried structurally (`serErrWrapped`, `wrapped`) instead
of re-implementing Python's `repr`.
-/

namespace PyRS

@[simp] theorem exceptOkBind {ε α β : Type} (a : α) (f : α → Except ε β) :
    (Except.ok a >>= f : Except ε β) = f a := rfl

@[simp] theorem exceptErrorBind {ε α β : Type} (e : ε) (f : α → Except ε β) :
    (Except.error e >>= f : Except ε β) = Except.error e := rfl

@[simp] theorem exceptPureEq {ε α : Type} (a : α) :
    (pure a : Except ε α) = Except.ok a := rfl

/-- Big-endian bytes of `n`, exactly `w` bytes wide (the semantics of
`struct.pack` for an unsigned value already reduced mod `256^w`). -/
def natToBytesBE : Nat → Nat → List Nat
  | 0, _ => []
  | w + 1, n => natToBytesBE w (n / 256) ++ [n % 256]

/-- Big-endian interpretation of a byte list. -/
def beToNat (bs : List Nat) : Nat :=
  bs.foldl (fun a b => a * 256 + b) 0

/-- Two's-complement reading of a `w`-byte big-endian byte string. -/
def twosDecode (w : Nat) (bs : List Nat) : Int :=
  let n := beToNat bs
  if n < 2 ^ (8 * w - 1) then (n : Int) else (n : Int) - 2 ^ (8 * w)

/-- The 4 bytes `struct.pack(">i", n)` produces for an in-range `n`
(big-endian two's complement); out-of-range arguments are handled at the
call sites that model `struct.error`. -/
def i32be (n : Int) : List Nat :=
  natToBytesBE 4 (n % (2 ^ 32)).toNat

/-- The 8 bytes `struct.pack(">q", n)` produces for an in-range `n`. -/
def i64be (n : Int) : List Nat :=
  natToBytesBE 8 (n % (2 ^ 64)).toNat

/- ---------------------------------------------------------------------
`src/python/scylla/serialize/column_type.py`

`NativeType`, `Native`, `Collection`/`List`, `UserDefinedTypeDefinition`,
`UserDefinedType`, `ColumnSpec`, `RowSerializationContext`.  `Collection`
is an abstract base with `List` its only concrete subclass in the source,
so the embedding fuses the two into one constructor carrying the `frozen`
flag.  `DOUBLE` carries no serializer logic needed by any claim; it is kept
in the enum for faithfulness.  `TableSpec` is diagnostic-only metadata and
is omitted from `ColumnSpec`.
--------------------------------------------------------------------- -/

inductive CNativeType where
  | INT
  | BIGINT
  | DOUBLE
  | BOOLEAN
  | TEXT
deriving DecidableEq, Repr

inductive CColumnType where
  /-- `Native(type=...)` -/
  | native (t : CNativeType)
  /-- `List(frozen=..., element_type=...)` (subclass of `Collection`). -/
  | list (frozen : Bool) (elementType : CColumnType)
  /-- `UserDefinedType(frozen=..., definition=...)`; the definition's
  `name`/`keyspace` strings plus its ordered `field_types`. -/
  | udt (frozen : Bool) (name keyspace : String)
      (fieldTypes : List (String × CColumnType))

/-- `isinstance(typ, column_type.Collection)` -/
def CColumnType.isCollection : CColumnType → Bool
  | .list _ _ => true
  | _ => false

/-- `isinstance(typ, column_type.List)` -/
def CColumnType.isList : CColumnType → Bool
  | .list _ _ => true
  | _ => false

/- ---------------------------------------------------------------------
Python exceptions, modelled structurally.
--------------------------------------------------------------------- -/

inductive PyErr where
  /-- `SerializationError(msg)` with a literal message. -/
  | serializationError (msg : String)
  /-- `TypeCheckError(msg)` with a literal message. -/
  | typeCheckError (msg : String)
  /-- `struct.error` raised by `struct.pack` on an out-of-range argument. -/
  | structError
  /-- builtin `TypeError` (e.g. `int(None)`). -/
  | pyTypeError
  /-- builtin `ValueError` (e.g. `int("abc")`). -/
  | pyValueError
  /-- `RuntimeError(msg)`. -/
  | runtimeError (msg : String)
  /-- `mk_typck_err_named(rust_name, typ, kind)` from serialize.py. -/
  | typckErrNamed (rustName : String) (typ : CColumnType) (kind : String)
  /-- `mk_ser_err_named(rust_name, typ, kind)` with a plain kind string. -/
  | serErrNamed (rustName : String) (typ : CColumnType) (kind : String)
  /-- `mk_ser_err_named` whose kind string embeds an inner exception
  (`ElementSerializationFailed: {err}` / `FieldSerializationFailed: ...`). -/
  | serErrWrapped (rustName : String) (typ : CColumnType) (kind : String)
      (inner : PyErr)
  /-- an exception re-raised inside a new `SerializationError` whose message
  embeds the inner exception (`f"...: {err}"`); `tag` is the added prefix. -/
  | wrapped (tag : String) (inner : PyErr)

/-- `struct.pack(">i", n)`: 4-byte big-endian two's complement, raising
`struct.error` outside the signed 32-bit range. -/
def structPackI32 (n : Int) : Except PyErr (List Nat) :=
  if -2147483648 ≤ n ∧ n ≤ 2147483647 then .ok (i32be n) else .error .structError

/-- `struct.pack(">q", n)`: as above at 8 bytes. -/
def structPackI64 (n : Int) : Except PyErr (List Nat) :=
  if -9223372036854775808 ≤ n ∧ n ≤ 9223372036854775807 then .ok (i64be n)
  else .error .structError

/-- `struct.pack(">B", n)`: one unsigned byte. -/
def structPackU8 (n : Nat) : Except PyErr (List Nat) :=
  if n ≤ 255 then .ok [n] else .error .structError

/-- The null cell: the 4-byte length marker `-1` and no payload
(`struct.pack(">i", -1)`, and what `PyCellWriter.set_null` emits per spec
§4.5). -/
def nullCell : List Nat := i32be (-1)

/- ---------------------------------------------------------------------
The dynamic Python value universe the serializers receive.

`obj toDict attrs` models an arbitrary non-dict object: `toDict = some d`
when the object has a callable `to_dict` returning `d`; `attrs` are the
named attributes visible to `hasattr`/`getattr`/`vars` (builtin attributes
of primitives are not modelled; no claim depends on them).  A dataclass
instance behaves, for the code under test, exactly like `obj` with its
fields as `attrs`.
--------------------------------------------------------------------- -/

inductive PyValue where
  | none
  | int (i : Int)
  | bool (b : Bool)
  | str (s : String)
  | list (xs : List PyValue)
  | tupleV (xs : List PyValue)
  | setV (xs : List PyValue)
  | pydict (kvs : List (String × PyValue))
  | obj (toDict : Option (List (String × PyValue)))
      (attrs : List (String × PyValue))

/-- Accumulating decimal digit parse (the core of Python `int(str)`). -/
def digitsVal (acc : Nat) : List Char → Option Nat
  | [] => some acc
  | c :: cs =>
    if c.isDigit then digitsVal (acc * 10 + (c.toNat - 48)) cs
    else Option.none

/-- Python `int(str)` on the basic decimal forms (an optional sign and
digits); the additional forms Python accepts — surrounding whitespace,
underscore separators, other bases — are not modelled, no claim uses
them. -/
def strToInt? (s : String) : Option Int :=
  match s.data with
  | [] => Option.none
  | '-' :: c :: cs => (digitsVal 0 (c :: cs)).map (fun n => -(n : Int))
  | '+' :: c :: cs => (digitsVal 0 (c :: cs)).map (fun n => (n : Int))
  | cs => (digitsVal 0 cs).map (fun n => (n : Int))

/-- Python `int(value)`: identity on ints, 0/1 on bools, decimal parse on
strings (`ValueError` on failure), `TypeError` elsewhere. -/
def pyInt : PyValue → Except PyErr Int
  | .int i => .ok i
  | .bool b => .ok (if b then 1 else 0)
  | .str s =>
    match strToInt? s with
    | some n => .ok n
    | Option.none => .error .pyValueError
  | _ => .error .pyTypeError

/-- Python `bool(value)` truthiness. -/
def pyBool : PyValue → Bool
  | .none => false
  | .int i => i != 0
  | .bool b => b
  | .str s => s != ""
  | .list xs => !xs.isEmpty
  | .tupleV xs => !xs.isEmpty
  | .setV xs => !xs.isEmpty
  | .pydict kvs => !kvs.isEmpty
  | .obj _ _ => true

mutual

/-- Python `repr(value)` for the modelled universe (the default object
`repr`, which embeds a memory address, is replaced by a fixed placeholder;
no claim depends on it). -/
def pyRepr : PyValue → String
  | .none => "None"
  | .int i => toString i
  | .bool b => if b then "True" else "False"
  | .str s => "'" ++ s ++ "'"
  | .list xs => "[" ++ String.intercalate ", " (pyReprList xs) ++ "]"
  | .tupleV xs => "(" ++ String.intercalate ", " (pyReprList xs) ++ ")"
  | .setV xs => "\x7b" ++ String.intercalate ", " (pyReprList xs) ++ "\x7d"
  | .pydict kvs => "\x7b" ++ String.intercalate ", " (pyReprKVs kvs) ++ "\x7d"
  | .obj _ _ => "<object>"

def pyReprList : List PyValue → List String
  | [] => []
  | x :: xs => pyRepr x :: pyReprList xs

def pyReprKVs : List (String × PyValue) → List String
  | [] => []
  | (k, v) :: kvs => ("'" ++ k ++ "': " ++ pyRepr v) :: pyReprKVs kvs

end

/-- Python `str(value)`: the string itself for `str`, `repr` otherwise
(which is what `str` gives for the other modelled types). -/
def pyStr : PyValue → String
  | .str s => s
  | v => pyRepr v

/-- UTF-8 encoding of one character (`str.encode("utf-8")`). -/
def utf8EncodeChar (c : Char) : List Nat :=
  let n := c.toNat
  if n < 128 then [n]
  else if n < 2048 then [192 + n / 64, 128 + n % 64]
  else if n < 65536 then
    [224 + n / 4096, 128 + (n / 64) % 64, 128 + n % 64]
  else
    [240 + n / 262144, 128 + (n / 4096) % 64, 128 + (n / 64) % 64,
      128 + n % 64]

/-- `s.encode("utf-8")` as a byte list. -/
def utf8Bytes (s : String) : List Nat :=
  (s.data.map utf8EncodeChar).flatten

/-- Assoc-list lookup, the shape of Python `d[k]` / `k in d` on the
modelled dicts. -/
def findVal (k : String) : List (String × PyValue) → Option PyValue
  | [] => Option.none
  | (k', v) :: rest => if k' = k then some v else findVal k rest

/-- Python `type(value)` rendered as in an f-string; the class of an
arbitrary object is not modelled and shown as a placeholder. -/
def pyTypeName : PyValue → String
  | .none => "<class 'NoneType'>"
  | .int _ => "<class 'int'>"
  | .bool _ => "<class 'bool'>"
  | .str _ => "<class 'str'>"
  | .list _ => "<class 'list'>"
  | .tupleV _ => "<class 'tuple'>"
  | .setV _ => "<class 'set'>"
  | .pydict _ => "<class 'dict'>"
  | .obj _ _ => "<class 'object'>"

/- =====================================================================
`SLZ` — `src/python/scylla/serializalize/serializer.py`.

A `TySer` is the serializer object that `create_serializer_from_type_spec`
builds for a column type: the constructors carry exactly the data the
corresponding `TypeSerializer` subclass holds (element serializers, tuple
element serializers, UDT `(field_name, field_serializer)` specs in
definition order).  `Double`/`Float` serializers pack IEEE-754 floats and
are outside the embedding; no claim depends on them.
===================================================================== -/

namespace SLZ

inductive TySer where
  | int
  | bigint
  | text
  | boolean
  | list (elt : TySer)
  | set (elt : TySer)
  | map (keySer valSer : TySer)
  | tuple (es : List TySer)
  | udt (fields : List (String × TySer))

/-- The attribute-extraction loop of `UDTSerializer.serialize_raw` for a
non-dict value without `to_dict`: build `field_values` from the object's
attributes, raising at the first declared field with no attribute. -/
def extractAttrs (attrs : List (String × PyValue)) :
    List (String × TySer) → Except PyErr (List (String × PyValue))
  | [] => .ok []
  | (n, _) :: rest =>
    match findVal n attrs with
    | some v => do
      let fv ← extractAttrs attrs rest
      .ok ((n, v) :: fv)
    | Option.none => .error (.serializationError ("UDT missing field: " ++ n))

mutual

/-- `TypeSerializer.serialize_raw` and its overrides: the raw (unprefixed)
payload bytes for one value. -/
def serializeRaw : TySer → PyValue → Except PyErr (List Nat)
  | .int, v =>
    match v with
    | .none => .ok []
    | _ => do
      let n ← pyInt v
      if -2147483648 ≤ n ∧ n ≤ 2147483647 then structPackI32 n
      else .error (.serializationError ("Int32 overflow: " ++ toString n))
  | .bigint, v =>
    match v with
    | .none => .ok []
    | _ => do
      let n ← pyInt v
      if -9223372036854775808 ≤ n ∧ n ≤ 9223372036854775807 then
        structPackI64 n
      else .error (.serializationError ("Int64 overflow: " ++ toString n))
  | .text, v =>
    match v with
    | .none => .ok []
    | _ => .ok (utf8Bytes (pyStr v))
  | .boolean, v =>
    match v with
    | .none => .ok []
    | _ => structPackU8 (if pyBool v then 1 else 0)
  | .list elt, v =>
    match v with
    | .list xs => listRaw elt xs
    | .tupleV xs => listRaw elt xs
    | _ => .error (.serializationError ("Expected list/tuple, got " ++ pyTypeName v))
  | .set elt, v =>
    match v with
    | .none => .ok []
    | .setV xs => listRaw elt xs
    | .list xs => listRaw elt xs
    | .tupleV xs => listRaw elt xs
    | _ => .error (.serializationError ("Expected set/list/tuple, got " ++ pyTypeName v))
  | .map kt vt, v =>
    match v with
    | .pydict kvs => do
      let cnt ← structPackI32 kvs.length
      let body ← mapPairs kt vt kvs
      .ok (cnt ++ body)
    | _ => .error (.serializationError ("Expected dict, got " ++ pyTypeName v))
  | .tuple es, v =>
    match v with
    | .list xs =>
      if xs.length ≠ es.length then
        .error (.serializationError ("Tuple length mismatch: expected "
          ++ toString es.length ++ ", got " ++ toString xs.length))
      else tupleElems es xs
    | .tupleV xs =>
      if xs.length ≠ es.length then
        .error (.serializationError ("Tuple length mismatch: expected "
          ++ toString es.length ++ ", got " ++ toString xs.length))
      else tupleElems es xs
    | _ => .error (.serializationError ("Expected tuple/list, got " ++ pyTypeName v))
  | .udt fields, v =>
    match v with
    | .none => .ok []
    | .pydict kvs => udtRaw fields kvs
    | .obj (some d) _ => udtRaw fields d
    | .obj Option.none attrs => do
      let fv ← extractAttrs attrs fields
      udtRaw fields fv
    | _ => do
      let fv ← extractAttrs [] fields
      udtRaw fields fv
termination_by s _ => (sizeOf s, 2, 0)

/-- `TypeSerializer.serialize_with_length`: `None` becomes the `-1` null
marker; anything else is the raw payload behind its 4-byte length. -/
def serializeWithLength (s : TySer) (v : PyValue) : Except PyErr (List Nat) :=
  match v with
  | .none => .ok (i32be (-1))
  | _ => do
    let raw ← serializeRaw s v
    let p ← structPackI32 raw.length
    .ok (p ++ raw)
termination_by (sizeOf s, 3, 0)

/-- `ListSerializer.serialize_raw` body: 4-byte element count, then each
element with its own length prefix. -/
def listRaw (elt : TySer) (xs : List PyValue) : Except PyErr (List Nat) := do
  let cnt ← structPackI32 xs.length
  let body ← slzElems elt xs
  .ok (cnt ++ body)
termination_by (sizeOf elt, 5, 0)

/-- The element loop of `ListSerializer.serialize_raw`. -/
def slzElems (elt : TySer) : List PyValue → Except PyErr (List Nat)
  | [] => .ok []
  | x :: xs => do
    let c ← serializeWithLength elt x
    let rest ← slzElems elt xs
    .ok (c ++ rest)
termination_by xs => (sizeOf elt, 4, sizeOf xs)

/-- The pair loop of `MapSerializer.serialize_raw` (dict keys are modelled
as strings, the only key shape the modelled dict carries). -/
def mapPairs (kt vt : TySer) : List (String × PyValue) → Except PyErr (List Nat)
  | [] => .ok []
  | (k, v) :: rest => do
    let kb ← serializeWithLength kt (.str k)
    let vb ← serializeWithLength vt v
    let r ← mapPairs kt vt rest
    .ok (kb ++ vb ++ r)
termination_by kvs => (sizeOf (TySer.map kt vt), 1, sizeOf kvs)

/-- The element loop of `TupleSerializer.serialize_raw` (`zip` of values
and element serializers). -/
def tupleElems : List TySer → List PyValue → Except PyErr (List Nat)
  | s :: ss, x :: xs => do
    let c ← serializeWithLength s x
    let rest ← tupleElems ss xs
    .ok (c ++ rest)
  | _, _ => .ok []
termination_by es xs => (sizeOf es, 4, sizeOf xs)

/-- The field loop of `UDTSerializer.serialize_raw`: declaration order,
missing field is an error in this implementation. -/
def udtRaw (fields : List (String × TySer)) (fv : List (String × PyValue)) :
    Except PyErr (List Nat) :=
  match fields with
  | [] => .ok []
  | (n, s) :: rest =>
    match findVal n fv with
    | Option.none =>
      .error (.serializationError ("UDT missing required field: " ++ n))
    | some val => do
      let c ← serializeWithLength s val
      let restB ← udtRaw rest fv
      .ok (c ++ restB)
termination_by (sizeOf fields, 4, 0)

end

/-- The per-column loop of module-level `serialize`: each value behind its
length prefix, any exception re-raised as
`SerializationError(f"Column {i} ('{name}'): {e}")`. -/
def serializeColumns : Nat → List PyValue → List (String × TySer) →
    Except PyErr (List Nat)
  | _, [], _ => .ok []
  | _, _, [] => .ok []
  | i, v :: vs, (name, s) :: cols =>
    match serializeWithLength s v with
    | .error e =>
      .error (.wrapped ("Column " ++ toString i ++ " ('" ++ name ++ "')") e)
    | .ok b => do
      let rest ← serializeColumns (i + 1) vs cols
      .ok (b ++ rest)

/-- Module-level `serialize(values, prepared)` of serializalize.  The
`TypeSpec` dictionaries obtained from the prepared statement are
represented by the serializer `create_serializer_from_type_spec` builds
from them, paired with the column name.  Returns the encoded buffer and
the element count; note there is no 16-bit bound check on the count in
this implementation. -/
def serialize (values : List PyValue) (columns : List (String × TySer)) :
    Except PyErr (List Nat × Nat) :=
  if values.length ≠ columns.length then
    .error (.serializationError ("Value count mismatch: expected "
      ++ toString columns.length ++ " values, got "
      ++ toString values.length))
  else if values.isEmpty then .ok ([], 0)
  else do
    let data ← serializeColumns 0 values columns
    .ok (data, values.length)

end SLZ

/- =====================================================================
`CellW` — `src/python/scylla/serializer.py`, the `PyCellWriter`-based
serializers used by `SerializedValues.add_row` on the live session path.

The writers (`PyCellWriter`, value builder, `PyRowWriter`) come from the
Rust extension and are not under `src/`.  Modelled from the spec, §4.5:
`set_null()` emits the 4-byte `-1` marker; `set_value(b)` emits
`len(b)` as a 4-byte big-endian length followed by `b`; a value builder
collects `append_bytes`/sub-writer output and `finish()` patches the
outer 4-byte length with the body length; `PyRowWriter.value_count()` is
the number of cell writers handed out.  Functionally each cell writer
simply yields the finished cell's bytes.
===================================================================== -/

namespace CellW

inductive Ser where
  | int
  | bigint
  | text
  | boolean
  | list (elt : Ser)
  | set (elt : Ser)
  | map (keySer valSer : Ser)
  | tuple (es : List Ser)
  | udt (fields : List (String × Ser))

/-- Modelled from the spec: `PyCellWriter.set_value(b)` produces the
4-byte big-endian length of `b` followed by `b` (§4.5); `finish()` on a
value builder patches the same shape onto the accumulated body. -/
def setValue (b : List Nat) : List Nat :=
  i32be (b.length : Int) ++ b

/-- The attribute-extraction loop of `UDTSerializer.serialize_value` for a
non-dict value without `to_dict`. -/
def extractAttrs (attrs : List (String × PyValue)) :
    List (String × Ser) → Except PyErr (List (String × PyValue))
  | [] => .ok []
  | (n, _) :: rest =>
    match findVal n attrs with
    | some v => do
      let fv ← extractAttrs attrs rest
      .ok ((n, v) :: fv)
    | Option.none => .error (.serializationError ("UDT missing field: " ++ n))

mutual

/-- `TypeSerializer.serialize`: `None` becomes a null cell, anything else
is dispatched to the subclass `serialize_value`. -/
def serialize (s : Ser) (v : PyValue) : Except PyErr (List Nat) :=
  match v with
  | .none => .ok nullCell
  | _ => serializeValue s v
termination_by (sizeOf s, 3, 0)

/-- The `serialize_value` overrides of serializer.py, producing the full
cell bytes written through the cell writer. -/
def serializeValue : Ser → PyValue → Except PyErr (List Nat)
  | .int, v => do
    let n ← pyInt v
    if -2147483648 ≤ n ∧ n ≤ 2147483647 then do
      let b ← structPackI32 n
      .ok (setValue b)
    else .error (.serializationError ("Int32 overflow: " ++ toString n))
  | .bigint, v => do
    let n ← pyInt v
    if -9223372036854775808 ≤ n ∧ n ≤ 9223372036854775807 then do
      let b ← structPackI64 n
      .ok (setValue b)
    else .error (.serializationError ("Int64 overflow: " ++ toString n))
  | .text, v => .ok (setValue (utf8Bytes (pyStr v)))
  | .boolean, v => do
    let b ← structPackU8 (if pyBool v then 1 else 0)
    .ok (setValue b)
  | .list elt, v =>
    match v with
    | .list xs => listValue elt xs
    | .tupleV xs => listValue elt xs
    | _ => .error (.serializationError ("Expected list/tuple, got " ++ pyTypeName v))
  | .set elt, v =>
    match v with
    | .setV xs => listValue elt xs
    | .list xs => listValue elt xs
    | .tupleV xs => listValue elt xs
    | _ => .error (.serializationError ("Expected set/list/tuple, got " ++ pyTypeName v))
  | .map kt vt, v =>
    match v with
    | .pydict kvs => do
      let cnt ← structPackI32 kvs.length
      let body ← cwMapPairs kt vt kvs
      .ok (setValue (cnt ++ body))
    | _ => .error (.serializationError ("Expected dict, got " ++ pyTypeName v))
  | .tuple es, v =>
    match v with
    | .list xs =>
      if xs.length ≠ es.length then
        .error (.serializationError ("Tuple length mismatch: expected "
          ++ toString es.length ++ ", got " ++ toString xs.length))
      else do
        let body ← cwTupleElems es xs
        .ok (setValue body)
    | .tupleV xs =>
      if xs.length ≠ es.length then
        .error (.serializationError ("Tuple length mismatch: expected "
          ++ toString es.length ++ ", got " ++ toString xs.length))
      else do
        let body ← cwTupleElems es xs
        .ok (setValue body)
    | _ => .error (.serializationError ("Expected tuple/list, got " ++ pyTypeName v))
  | .udt fields, v =>
    match v with
    | .pydict kvs => do
      let body ← cwUdtBody fields kvs
      .ok (setValue body)
    | .obj (some d) _ => do
      let body ← cwUdtBody fields d
      .ok (setValue body)
    | .obj Option.none attrs => do
      let fv ← extractAttrs attrs fields
      let body ← cwUdtBody fields fv
      .ok (setValue body)
    | _ => do
      let fv ← extractAttrs [] fields
      let body ← cwUdtBody fields fv
      .ok (setValue body)
termination_by s _ => (sizeOf s, 2, 0)

/-- `ListSerializer.serialize_value` behind its builder: 4-byte element
count, then each element as its own sub-cell, then the length patch. -/
def listValue (elt : Ser) (xs : List PyValue) : Except PyErr (List Nat) := do
  let cnt ← structPackI32 xs.length
  let body ← cwElems elt xs
  .ok (setValue (cnt ++ body))
termination_by (sizeOf elt, 5, 0)

/-- The element loop of `ListSerializer.serialize_value` (each element goes
through `TypeSerializer.serialize` on a fresh sub-writer). -/
def cwElems (elt : Ser) : List PyValue → Except PyErr (List Nat)
  | [] => .ok []
  | x :: xs => do
    let c ← serialize elt x
    let rest ← cwElems elt xs
    .ok (c ++ rest)
termination_by xs => (sizeOf elt, 4, sizeOf xs)

/-- The pair loop of `MapSerializer.serialize_value`. -/
def cwMapPairs (kt vt : Ser) : List (String × PyValue) → Except PyErr (List Nat)
  | [] => .ok []
  | (k, v) :: rest => do
    let kb ← serialize kt (.str k)
    let vb ← serialize vt v
    let r ← cwMapPairs kt vt rest
    .ok (kb ++ vb ++ r)
termination_by kvs => (sizeOf (Ser.map kt vt), 1, sizeOf kvs)

/-- The element loop of `TupleSerializer.serialize_value`. -/
def cwTupleElems : List Ser → List PyValue → Except PyErr (List Nat)
  | s :: ss, x :: xs => do
    let c ← serialize s x
    let rest ← cwTupleElems ss xs
    .ok (c ++ rest)
  | _, _ => .ok []
termination_by es xs => (sizeOf es, 4, sizeOf xs)

/-- The field loop of `UDTSerializer.serialize_value`: declaration order;
a field absent from `field_values` becomes a null sub-cell. -/
def cwUdtBody : List (String × Ser) → List (String × PyValue) →
    Except PyErr (List Nat)
  | [], _ => .ok []
  | (n, s) :: rest, fv =>
    match findVal n fv with
    | Option.none => do
      let restB ← cwUdtBody rest fv
      .ok (nullCell ++ restB)
    | some val => do
      let c ← serialize s val
      let restB ← cwUdtBody rest fv
      .ok (c ++ restB)
termination_by fields _ => (sizeOf fields, 4, 0)

end

/-- The per-column loop of `SerializedValues.add_row`: each column's value
through `TypeSerializer.serialize` on a fresh cell writer, any exception
re-raised as `SerializationError(f"{e}")` (bare re-wrap, tag empty). -/
def addRowCells : List PyValue → List Ser → Except PyErr (List Nat)
  | [], _ => .ok []
  | _, [] => .ok []
  | v :: vs, s :: cols =>
    match serialize s v with
    | .error e => .error (.wrapped "" e)
    | .ok c => do
      let rest ← addRowCells vs cols
      .ok (c ++ rest)

/-- `SerializedValues.add_row` with the columns represented by the
serializers `create_serializer_from_col_type` builds for them.
`row_writer.value_count()` is the number of cells written, i.e. the number
of values (spec §4.5); the `RuntimeError` raised by the u16-range check is
converted to `SerializationError(f"Serialization failed: {e}")` by the
enclosing `except` clause. -/
def addRow (values : List PyValue) (columns : List Ser) :
    Except PyErr (List Nat × Nat) :=
  if values.length ≠ columns.length then
    .error (.serializationError "Wrong length")
  else if values.isEmpty then
    .error (.serializationError "Serialization failed: values not provided")
  else
    match addRowCells values columns with
    | .error e => .error e
    | .ok buf =>
      let elementCount := values.length
      if elementCount > 65535 then
        .error (.wrapped "Serialization failed"
          (.runtimeError ("Element count must be in u16 range (0-65535), got "
            ++ toString elementCount)))
      else .ok (buf, elementCount)

end CellW

/- =====================================================================
`Ser` — `src/python/scylla/serialize/serialize.py`: typed wrapper values
(`Int`, `BigInt`, `Boolean`, `Text`, `List`, `UserDefinedType`)
implementing the `SerializeValue` protocol, plus `ValueList`.  `Double`
wraps IEEE-754 floats and is outside the embedding; no claim depends on
it.
===================================================================== -/

namespace Ser

inductive SVal where
  | sint (value : Int)
  | sbigint (value : Int)
  | sbool (value : Bool)
  | stext (value : String)
  | slist (elements : List SVal)
  | sudt (fieldValues : List (String × SVal))

/-- Mapping lookup on a UDT wrapper's `field_values`. -/
def findSVal (k : String) : List (String × SVal) → Option SVal
  | [] => Option.none
  | (k', v) :: rest => if k' = k then some v else findSVal k rest

theorem findSVal_sizeOf {k : String} :
    ∀ {l : List (String × SVal)} {v : SVal},
      findSVal k l = some v → sizeOf v < sizeOf l := by
  intro l
  induction l with
  | nil => intro v h; simp [findSVal] at h
  | cons p rest ih =>
    intro v h
    obtain ⟨k', x⟩ := p
    by_cases hk : k' = k
    · simp [findSVal, hk] at h
      subst h
      simp
      omega
    · simp [findSVal, hk] at h
      have := ih h
      simp
      omega

/-- `Int.__init__`: range check at construction. -/
def IntInit (value : Int) : Except PyErr SVal :=
  if -2147483648 ≤ value ∧ value ≤ 2147483647 then .ok (.sint value)
  else .error (.typeCheckError ("Int overflow: " ++ toString value))

/-- `BigInt.__init__`: range check at construction. -/
def BigIntInit (value : Int) : Except PyErr SVal :=
  if -9223372036854775808 ≤ value ∧ value ≤ 9223372036854775807 then
    .ok (.sbigint value)
  else .error (.typeCheckError ("BigInt overflow: " ++ toString value))

/-- `exact_type_check_native(actual_typ, expected_native)`: passes whenever
the column type is *some* `Native`, regardless of which native kind was
expected (the expected kind is only interpolated into the error message,
never compared). -/
def exactTypeCheckNative (actual : CColumnType) (expectedNative : CNativeType) :
    Except PyErr Unit :=
  match actual with
  | .native _ => .ok ()
  | _ => .error (.typeCheckError "column_type.Native")

mutual

/-- The `serialize_value` methods of the typed wrappers: full cell bytes
(4-byte length prefix plus payload). -/
def serializeValue : SVal → CColumnType → Except PyErr (List Nat)
  | .sint v, typ => do
    let _ ← exactTypeCheckNative typ .INT
    let raw ← structPackI32 v
    .ok (i32be 4 ++ raw)
  | .sbigint v, typ => do
    let _ ← exactTypeCheckNative typ .BIGINT
    let raw ← structPackI64 v
    .ok (i32be 8 ++ raw)
  | .sbool b, typ => do
    let _ ← exactTypeCheckNative typ .BOOLEAN
    let raw ← structPackU8 (if b then 1 else 0)
    .ok (i32be 1 ++ raw)
  | .stext s, typ => do
    let _ ← exactTypeCheckNative typ .TEXT
    let raw := utf8Bytes s
    let p ← structPackI32 raw.length
    .ok (p ++ raw)
  | .slist elements, typ =>
    -- the guard `(not isinstance(typ, Collection)) and isinstance(typ, List)`
    -- from `List.serialize_value`, kept although it can never fire
    if !typ.isCollection && typ.isList then
      .error (.typckErrNamed "List" typ "NotSetOrList")
    else serializeSequence "List" elements.length elements typ
  | .sudt fvs, typ =>
    match typ with
    | .udt fz nm ks fieldTypes => do
      let body ← serUdtFields (CColumnType.udt fz nm ks fieldTypes) fvs fieldTypes
      let p ← structPackI32 body.length
      .ok (p ++ body)
    | _ => .error (.typckErrNamed "UserDefinedType" typ "NotUserDefinedType")
termination_by v _ => (sizeOf v, 2, 0)

/-- `serialize_sequence(rust_name, length, iterator, typ)`: requires a
non-frozen `List` column type, enforces the 2^31-1 element bound, then
writes the 4-byte count and each element's cell, and length-prefixes the
whole body. -/
def serializeSequence (rustName : String) (length : Nat) (elems : List SVal)
    (typ : CColumnType) : Except PyErr (List Nat) :=
  match typ with
  | .list false elt =>
    if length > 2147483647 then
      .error (.serErrNamed rustName (CColumnType.list false elt)
        "TooManyElements")
    else do
      let cnt ← structPackI32 (length : Int)
      let body ← serSeqElems rustName (CColumnType.list false elt) elt elems
      let p ← structPackI32 (cnt ++ body).length
      .ok (p ++ (cnt ++ body))
  | _ => .error (.typckErrNamed rustName typ "NotSetOrList")
termination_by (sizeOf elems, 1, 0)

/-- The element loop of `serialize_sequence`; element failures become
`ElementSerializationFailed` serialization errors. -/
def serSeqElems (rustName : String) (typFull : CColumnType) (elt : CColumnType) :
    List SVal → Except PyErr (List Nat)
  | [] => .ok []
  | x :: xs =>
    match serializeValue x elt with
    | .error err =>
      .error (.serErrWrapped rustName typFull "ElementSerializationFailed" err)
    | .ok c => do
      let rest ← serSeqElems rustName typFull elt xs
      .ok (c ++ rest)
termination_by xs => (sizeOf xs, 0, 0)

/-- The field loop of `UserDefinedType.serialize_value`: iterates the
*schema* field order; a declared field absent from `field_values` is a
`MissingRequiredField` serialization error in this implementation. -/
def serUdtFields (typFull : CColumnType) (fvs : List (String × SVal)) :
    List (String × CColumnType) → Except PyErr (List Nat)
  | [] => .ok []
  | (fieldName, fieldType) :: rest =>
    match hfind : findSVal fieldName fvs with
    | Option.none =>
      .error (.serErrNamed "UserDefinedType" typFull
        ("MissingRequiredField: " ++ fieldName))
    | some fval =>
      match serializeValue fval fieldType with
      | .error err =>
        .error (.serErrWrapped "UserDefinedType" typFull
          ("FieldSerializationFailed: " ++ fieldName) err)
      | .ok c => do
        let restB ← serUdtFields typFull fvs rest
        .ok (c ++ restB)
termination_by fieldTypes => (sizeOf fvs, 1, sizeOf fieldTypes)
decreasing_by
  · exact Prod.Lex.left _ _ (findSVal_sizeOf hfind)
  · exact Prod.Lex.right _ (Prod.Lex.right _ (by simp))

end

/-- `ColumnSpec` (the diagnostic-only `TableSpec` is omitted). -/
structure ColumnSpec where
  name : String
  typ : CColumnType

/-- The per-column loop of `ValueList.serialize`: the `isinstance(value,
SerializeValue)` protocol check (which Python `None` fails), then the
value's `serialize_value` with failures wrapped with the index and column
name. -/
def valueListCells : Nat → List (Option SVal) → List ColumnSpec →
    Except PyErr (List Nat)
  | _, [], _ => .ok []
  | _, _, [] => .ok []
  | i, v :: vs, col :: cols =>
    match v with
    | Option.none =>
      .error (.serializationError ("Value at index " ++ toString i
        ++ " does not implement SerializeValue protocol"))
    | some sv =>
      match serializeValue sv col.typ with
      | .error err =>
        .error (.wrapped ("Failed to serialize value at index " ++ toString i
          ++ " (column '" ++ col.name ++ "')") err)
      | .ok b => do
        let rest ← valueListCells (i + 1) vs cols
        .ok (b ++ rest)

/-- `ValueList.serialize(ctx)`: arity check first, then the cell loop,
then the u16 element-count bound. -/
def valueListSerialize (values : List (Option SVal))
    (columns : List ColumnSpec) : Except PyErr (List Nat × Nat) :=
  if values.length ≠ columns.length then
    .error (.serializationError ("Value count mismatch: expected "
      ++ toString columns.length ++ " values, got "
      ++ toString values.length))
  else do
    let writer ← valueListCells 0 values columns
    let elementCount := values.length
    if elementCount > 65535 then
      .error (.serializationError ("Element count must be in u16 range (0-65535), got "
        ++ toString elementCount))
    else .ok (writer, elementCount)

end Ser

/- =====================================================================
`Session` — `_normalize_values` from `src/python/scylla/session.py`.
A dataclass instance and a plain attribute-bearing object both reduce to
a per-column lookup in their field mapping; the single `obj` constructor
models both through its `attrs` (the messages differ only in the wording
`field`/`attribute`; the `attrs` path's wording is used).
===================================================================== -/

namespace Session

/-- The `[values[col] for col in columns]` comprehension: first missing
key raises `RuntimeError(msgHead + column)`. -/
def lookupCols (msgHead : String) (kvs : List (String × PyValue)) :
    List String → Except PyErr (List PyValue)
  | [] => .ok []
  | c :: cols =>
    match findVal c kvs with
    | Option.none => .error (.runtimeError (msgHead ++ c))
    | some v => do
      let rest ← lookupCols msgHead kvs cols
      .ok (v :: rest)

/-- `_normalize_values(prepared, values)` with the prepared statement's
column names passed explicitly. -/
def normalizeValues (columns : List String) (values : PyValue) :
    Except PyErr (List PyValue) :=
  match values with
  | .list xs => .ok xs
  | .tupleV xs => .ok xs
  | .pydict kvs => lookupCols "Missing key for column " kvs columns
  | .obj _ attrs => lookupCols "Missing attribute for column " attrs columns
  | v => .ok [v]

/-- The bundle shapes that fall through to the scalar fallback of
`_normalize_values` (not a sequence, not a mapping, not a dataclass, no
`__dict__`). -/
def isScalarShape : PyValue → Bool
  | .none => true
  | .int _ => true
  | .bool _ => true
  | .str _ => true
  | .setV _ => true
  | _ => false

end Session

/-- The per-field cells of the `CellW` UDT serializer, as a list (one cell
per declared field, in declaration order): a field absent from the value
mapping contributes the null cell, a present one its serialized cell. -/
def cwUdtCells : List (String × CellW.Ser) → List (String × PyValue) →
    Except PyErr (List (List Nat))
  | [], _ => .ok []
  | (n, s) :: rest, fv =>
    match findVal n fv with
    | Option.none => do
      let cs ← cwUdtCells rest fv
      .ok (nullCell :: cs)
    | some v => do
      let c ← CellW.serialize s v
      let cs ← cwUdtCells rest fv
      .ok (c :: cs)

/-- The per-element cells of `serialize_sequence`, as a list. -/
def serSeqCells (elt : CColumnType) : List Ser.SVal →
    Except PyErr (List (List Nat))
  | [] => .ok []
  | x :: xs => do
    let c ← Ser.serializeValue x elt
    let cs ← serSeqCells elt xs
    .ok (c :: cs)

/- =====================================================================
Shared byte-level lemmas.
===================================================================== -/

theorem natToBytesBE_length : ∀ (w n : Nat), (natToBytesBE w n).length = w
  | 0, _ => rfl
  | w + 1, n => by simp [natToBytesBE, natToBytesBE_length w]

theorem beToNat_append_one (xs : List Nat) (b : Nat) :
    beToNat (xs ++ [b]) = beToNat xs * 256 + b := by
  simp [beToNat, List.foldl_append]

theorem beToNat_natToBytesBE : ∀ (w n : Nat),
    beToNat (natToBytesBE w n) = n % 256 ^ w
  | 0, n => by simp [natToBytesBE, beToNat, Nat.mod_one]
  | w + 1, n => by
    rw [natToBytesBE, beToNat_append_one, beToNat_natToBytesBE w, pow_succ,
      mul_comm (256 ^ w) 256, Nat.mod_mul]
    ring

theorem i32be_length (n : Int) : (i32be n).length = 4 :=
  natToBytesBE_length 4 _

theorem i64be_length (n : Int) : (i64be n).length = 8 :=
  natToBytesBE_length 8 _

/-- Round trip for the 4-byte encoding: reading `i32be v` back as big-endian
two's complement recovers any `v` in the signed 32-bit range. -/
theorem twosDecode_i32be (v : Int) (h1 : -2147483648 ≤ v)
    (h2 : v ≤ 2147483647) : twosDecode 4 (i32be v) = v := by
  simp only [twosDecode, i32be, beToNat_natToBytesBE]
  norm_num
  omega

/-- Round trip for the 8-byte encoding. -/
theorem twosDecode_i64be (v : Int) (h1 : -9223372036854775808 ≤ v)
    (h2 : v ≤ 9223372036854775807) : twosDecode 8 (i64be v) = v := by
  simp only [twosDecode, i64be, beToNat_natToBytesBE]
  norm_num
  omega

/- =====================================================================
Shared lemmas about the serialize/serialize.py sequence encoder.
===================================================================== -/

/-- A native wrapper cell: any `Int` wrapper value in range serializes
against any `Native` column type as length 4 plus the 4 payload bytes. -/
theorem ser_sint_cell (v : Int) (t : CNativeType) (h1 : -2147483648 ≤ v)
    (h2 : v ≤ 2147483647) :
    Ser.serializeValue (.sint v) (.native t) = .ok (i32be 4 ++ i32be v) := by
  unfold Ser.serializeValue Ser.exactTypeCheckNative
  simp [structPackI32, h1, h2]

/-- If every element serializes, the `serialize_sequence` element loop
returns the concatenation of the element cells. -/
theorem serSeqElems_of_cells (rn : String) (tf elt : CColumnType) :
    ∀ (xs : List Ser.SVal) (cells : List (List Nat)),
      serSeqCells elt xs = .ok cells →
      Ser.serSeqElems rn tf elt xs = .ok cells.flatten := by
  intro xs
  induction xs with
  | nil =>
    intro cells hc
    simp [serSeqCells] at hc
    subst hc
    simp [Ser.serSeqElems]
  | cons x rest ih =>
    intro cells hc
    unfold serSeqCells at hc
    unfold Ser.serSeqElems
    cases hx : Ser.serializeValue x elt with
    | error e => rw [hx] at hc; simp at hc
    | ok c =>
      rw [hx] at hc
      simp at hc
      cases hr : serSeqCells elt rest with
      | error e => rw [hr] at hc; simp at hc
      | ok cs =>
        rw [hr] at hc
        simp at hc
        subst hc
        rw [ih cs hr]
        simp

/-- `serialize_sequence` on a non-frozen list type and an in-bounds
element count: the cell is the 4-byte total length, the 4-byte count, and
the element cells in order. -/
theorem serializeSequence_ok (rn : String) (elt : CColumnType)
    (xs : List Ser.SVal) (cells : List (List Nat))
    (hc : serSeqCells elt xs = .ok cells)
    (hlen : xs.length ≤ 2147483647)
    (htot : 4 + cells.flatten.length ≤ 2147483647) :
    Ser.serializeSequence rn xs.length xs (.list false elt) =
      .ok (i32be (4 + cells.flatten.length) ++ (i32be xs.length ++ cells.flatten)) := by
  unfold Ser.serializeSequence
  rw [if_neg (by omega)]
  have hcnt : structPackI32 ((xs.length : Nat) : Int) = .ok (i32be xs.length) := by
    unfold structPackI32
    have hb : -2147483648 ≤ ((xs.length : Nat) : Int)
        ∧ ((xs.length : Nat) : Int) ≤ 2147483647 :=
      ⟨by omega, by exact_mod_cast hlen⟩
    rw [if_pos hb]
  have hlen2 : (i32be xs.length ++ cells.flatten).length = 4 + cells.flatten.length := by
    rw [List.length_append, i32be_length]
  have hp : structPackI32 ((4 + cells.flatten.length : Nat) : Int) =
      .ok (i32be (4 + cells.flatten.length)) := by
    unfold structPackI32
    have hb : -2147483648 ≤ ((4 + cells.flatten.length : Nat) : Int)
        ∧ ((4 + cells.flatten.length : Nat) : Int) ≤ 2147483647 :=
      ⟨by omega, by exact_mod_cast htot⟩
    rw [if_pos hb]
    norm_cast
  rw [hcnt, exceptOkBind, serSeqElems_of_cells rn _ elt xs cells hc,
    exceptOkBind, hlen2, hp, exceptOkBind]

/-- `List.serialize_value` forwards to `serialize_sequence` (the guard in
the source can never fire on a `List` column type). -/
theorem ser_slist_to_sequence (xs : List Ser.SVal) (fz : Bool) (elt : CColumnType) :
    Ser.serializeValue (.slist xs) (.list fz elt) =
      Ser.serializeSequence "List" xs.length xs (.list fz elt) := by
  unfold Ser.serializeValue
  simp [CColumnType.isCollection, CColumnType.isList]

/- =====================================================================
Claim C5 — nesting and the frozen modifier.
===================================================================== -/

/-- C5, counterexample: serializing `[[1,2,3],[],[4]]` against
`list<frozen<list<int>>>` does **not** succeed — `serialize_sequence`
requires `not typ.frozen`, so the frozen inner list fails its type check
with `NotSetOrList`, surfaced as `ElementSerializationFailed` on the first
element.  The frozen modifier does prevent the wire encoding in this
implementation, contrary to the claim. -/
theorem c5_counterexample :
    Ser.serializeValue
      (.slist [.slist [.sint 1, .sint 2, .sint 3], .slist [], .slist [.sint 4]])
      (.list false (.list true (.native .INT))) =
    .error (.serErrWrapped "List" (.list false (.list true (.native .INT)))
      "ElementSerializationFailed"
      (.typckErrNamed "List" (.list true (.native .INT)) "NotSetOrList")) := by
  simp [Ser.serializeValue, Ser.serializeSequence, Ser.serSeqElems,
    CColumnType.isCollection, CColumnType.isList, structPackI32]

/-- C5, amended: with a *non-frozen* inner list type the encoding is
exactly as the claim describes: an outer 4-byte count of 3 followed by
three length-prefixed nested cells that are themselves `list<int>`
encodings with inner counts 3, 0 and 1 (the bytes below are, in order:
outer length 60, outer count 3, then cells of lengths 28, 4 and 12 whose
bodies start with counts 3, 0 and 1). -/
theorem c5_nested_list_encoding :
    Ser.serializeValue
      (.slist [.slist [.sint 1, .sint 2, .sint 3], .slist [], .slist [.sint 4]])
      (.list false (.list false (.native .INT))) =
    .ok [0, 0, 0, 60, 0, 0, 0, 3,
         0, 0, 0, 28, 0, 0, 0, 3, 0, 0, 0, 4, 0, 0, 0, 1, 0, 0, 0, 4, 0, 0,
         0, 2, 0, 0, 0, 4, 0, 0, 0, 3,
         0, 0, 0, 4, 0, 0, 0, 0,
         0, 0, 0, 12, 0, 0, 0, 1, 0, 0, 0, 4, 0, 0, 0, 4] := by
  have hc1 : serSeqCells (.native .INT) [.sint 1, .sint 2, .sint 3] =
      .ok [[0,0,0,4,0,0,0,1], [0,0,0,4,0,0,0,2], [0,0,0,4,0,0,0,3]] := by
    simp [serSeqCells, ser_sint_cell 1 .INT (by norm_num) (by norm_num),
      ser_sint_cell 2 .INT (by norm_num) (by norm_num),
      ser_sint_cell 3 .INT (by norm_num) (by norm_num)]
    exact ⟨rfl, rfl, rfl⟩
  have hc2 : serSeqCells (.native .INT) ([] : List Ser.SVal) = .ok [] := rfl
  have hc3 : serSeqCells (.native .INT) [.sint 4] = .ok [[0,0,0,4,0,0,0,4]] := by
    simp [serSeqCells, ser_sint_cell 4 .INT (by norm_num) (by norm_num)]
    rfl
  have hv1 : Ser.serializeValue (.slist [.sint 1, .sint 2, .sint 3])
      (.list false (.native .INT)) =
      .ok [0,0,0,28, 0,0,0,3, 0,0,0,4,0,0,0,1, 0,0,0,4,0,0,0,2, 0,0,0,4,0,0,0,3] := by
    rw [ser_slist_to_sequence,
      serializeSequence_ok "List" (.native .INT) _ _ hc1 (by norm_num) (by norm_num)]
    rfl
  have hv2 : Ser.serializeValue (.slist []) (.list false (.native .INT)) =
      .ok [0,0,0,4, 0,0,0,0] := by
    rw [ser_slist_to_sequence,
      serializeSequence_ok "List" (.native .INT) _ _ hc2 (by norm_num) (by norm_num)]
    rfl
  have hv3 : Ser.serializeValue (.slist [.sint 4]) (.list false (.native .INT)) =
      .ok [0,0,0,12, 0,0,0,1, 0,0,0,4,0,0,0,4] := by
    rw [ser_slist_to_sequence,
      serializeSequence_ok "List" (.native .INT) _ _ hc3 (by norm_num) (by norm_num)]
    rfl
  have hcO : serSeqCells (.list false (.native .INT))
      [.slist [.sint 1, .sint 2, .sint 3], .slist [], .slist [.sint 4]] =
      .ok [[0,0,0,28, 0,0,0,3, 0,0,0,4,0,0,0,1, 0,0,0,4,0,0,0,2, 0,0,0,4,0,0,0,3],
           [0,0,0,4, 0,0,0,0],
           [0,0,0,12, 0,0,0,1, 0,0,0,4,0,0,0,4]] := by
    simp [serSeqCells, hv1, hv2, hv3]
  rw [ser_slist_to_sequence,
    serializeSequence_ok "List" (.list false (.native .INT)) _ _ hcO
      (by norm_num) (by norm_num)]
  rfl

/- =====================================================================
Claim C4 — list/set payload layout and the element-count bound.
===================================================================== -/

/-- C4, counterexample: in the serializalize path (cited by the claim), a
list whose element count exceeds 2^31-1 does **not** fail with a
`TooManyElements` error — `ListSerializer.serialize_raw` has no bound
check and `struct.pack(">i", element_count)` raises a bare `struct.error`
instead. -/
theorem c4_counterexample :
    SLZ.serializeRaw (.list .int)
      (.list (List.replicate 2147483648 (.int 0))) = .error .structError := by
  have hpack : structPackI32 (((List.replicate 2147483648 (PyValue.int 0)).length : Nat) : Int) =
      .error .structError := by
    rw [List.length_replicate]
    unfold structPackI32
    rw [if_neg]
    norm_num
  unfold SLZ.serializeRaw
  unfold SLZ.listRaw
  rw [hpack, exceptErrorBind]

/-- C4, amended: the serialize/serialize.py sequence encoder behaves as
the claim says — an element count above 2^31-1 fails with
`TooManyElements`, and an in-bounds count yields the 4-byte big-endian
count followed by each element's own length-prefixed cell; the
serializalize and serializer.py list serializers produce the same in-range
layout but fail an oversized count with a `struct.error` rather than
`TooManyElements`. -/
theorem c4_sequence_encoding :
    ∀ (elems : List Ser.SVal) (elt : CColumnType),
      (elems.length > 2147483647 →
        Ser.serializeSequence "List" elems.length elems (.list false elt) =
          .error (.serErrNamed "List" (.list false elt) "TooManyElements"))
      ∧ (∀ cells, serSeqCells elt elems = .ok cells →
          elems.length ≤ 2147483647 → 4 + cells.flatten.length ≤ 2147483647 →
          Ser.serializeSequence "List" elems.length elems (.list false elt) =
            .ok (i32be (4 + cells.flatten.length)
              ++ (i32be elems.length ++ cells.flatten))) := by
  intro elems elt
  constructor
  · intro h
    unfold Ser.serializeSequence
    rw [if_pos h]
  · intro cells hc h1 h2
    exact serializeSequence_ok "List" elt elems cells hc h1 h2

/-- C4, witness: the `TooManyElements` branch at a 2^31-element list and
the layout branch at a one-element `list<int>`. -/
theorem c4_witness :
    ((List.replicate 2147483648 (Ser.SVal.sint 0)).length > 2147483647
      ∧ Ser.serializeSequence "List"
          (List.replicate 2147483648 (Ser.SVal.sint 0)).length
          (List.replicate 2147483648 (Ser.SVal.sint 0))
          (.list false (.native .INT)) =
        .error (.serErrNamed "List" (.list false (.native .INT)) "TooManyElements"))
    ∧ (serSeqCells (.native .INT) [Ser.SVal.sint 1] = .ok [[0,0,0,4,0,0,0,1]]
      ∧ Ser.serializeSequence "List" [Ser.SVal.sint 1].length [Ser.SVal.sint 1]
          (.list false (.native .INT)) =
        .ok (i32be (4 + ([[0,0,0,4,0,0,0,1]] : List (List Nat)).flatten.length)
          ++ (i32be [Ser.SVal.sint 1].length
            ++ ([[0,0,0,4,0,0,0,1]] : List (List Nat)).flatten))) := by
  have hbig : (List.replicate 2147483648 (Ser.SVal.sint 0)).length > 2147483647 := by
    rw [List.length_replicate]
    norm_num
  have hcells : serSeqCells (.native .INT) [Ser.SVal.sint 1] = .ok [[0,0,0,4,0,0,0,1]] := by
    simp [serSeqCells, ser_sint_cell 1 .INT (by norm_num) (by norm_num)]
    rfl
  exact ⟨⟨hbig, (c4_sequence_encoding _ (.native .INT)).1 hbig⟩,
    ⟨hcells, (c4_sequence_encoding _ (.native .INT)).2 _ hcells (by norm_num) (by norm_num)⟩⟩

/- =====================================================================
Claim C3 — null encoding.
===================================================================== -/

/-- C3, counterexample: in the serialize/serialize.py path
(`ValueList.serialize`, cited by the claim), serializing a `None` value
for an Int column does not produce the 4-byte `-1` marker — `None` fails
the `isinstance(value, SerializeValue)` protocol check and the call raises
instead. -/
theorem c3_counterexample :
    Ser.valueListSerialize [Option.none] [⟨"c", .native .INT⟩] =
    .error (.serializationError
      "Value at index 0 does not implement SerializeValue protocol") := by
  simp [Ser.valueListSerialize, Ser.valueListCells]
  rfl

/-- C3, amended: in the serializalize path (`serialize_with_length`) and
the cell-writer path (`TypeSerializer.serialize`), serializing `None`
against **every** modelled column type produces exactly the 4-byte
big-endian `-1` marker (`ff ff ff ff`) and no payload bytes; the
serialize/serialize.py `ValueList` path has no null representation and
rejects `None` as not implementing the `SerializeValue` protocol. -/
theorem c3_null_marker :
    (∀ s : SLZ.TySer, SLZ.serializeWithLength s .none = .ok [255, 255, 255, 255])
    ∧ (∀ c : CellW.Ser, CellW.serialize c .none = .ok [255, 255, 255, 255]) := by
  constructor
  · intro s
    simp [SLZ.serializeWithLength]
    rfl
  · intro c
    simp [CellW.serialize]
    rfl

/-- C3, witness for the amended theorem at concrete serializers (an Int
column and a nested-list column). -/
theorem c3_witness :
    SLZ.serializeWithLength .int .none = .ok [255, 255, 255, 255]
    ∧ SLZ.serializeWithLength (.list .text) .none = .ok [255, 255, 255, 255]
    ∧ CellW.serialize (.udt [("a", .int)]) .none = .ok [255, 255, 255, 255] :=
  ⟨c3_null_marker.1 .int, c3_null_marker.1 (.list .text),
    c3_null_marker.2 (.udt [("a", .int)])⟩

/- =====================================================================
Claim C6 — arity mismatch and missing mapping keys.
===================================================================== -/

/-- If some requested column is missing from the mapping, the lookup
comprehension fails with a `RuntimeError` naming the first missing
column. -/
theorem lookupCols_missing (m : String) (kvs : List (String × PyValue)) :
    ∀ (cols : List String) (c : String), c ∈ cols → findVal c kvs = Option.none →
      ∃ c2, c2 ∈ cols ∧ findVal c2 kvs = Option.none ∧
        Session.lookupCols m kvs cols = .error (.runtimeError (m ++ c2)) := by
  intro cols
  induction cols with
  | nil => intro c hc _; simp at hc
  | cons c0 rest ih =>
    intro c hc hmiss
    cases hf : findVal c0 kvs with
    | none =>
      refine ⟨c0, List.mem_cons_self _ _, hf, ?_⟩
      unfold Session.lookupCols
      rw [hf]
    | some v =>
      have hcr : c ∈ rest := by
        rcases List.mem_cons.mp hc with h | h
        · subst h; rw [hf] at hmiss; cases hmiss
        · exact h
      obtain ⟨c2, hm, hmiss2, heq⟩ := ih c hcr hmiss
      refine ⟨c2, List.mem_cons_of_mem _ hm, hmiss2, ?_⟩
      unfold Session.lookupCols
      rw [hf, heq]
      rfl

/-- C6: encoding an ordered sequence whose length differs from the
context's column count fails with the arity-mismatch error before any
cell is serialized (the functional model returns the error without
touching any value), and normalizing a mapping that lacks an entry for
some requested column fails with a `RuntimeError` naming a missing
column. -/
theorem c6_arity_and_missing_column :
    (∀ (vals : List (Option Ser.SVal)) (cols : List Ser.ColumnSpec),
      vals.length ≠ cols.length →
      Ser.valueListSerialize vals cols = .error (.serializationError
        ("Value count mismatch: expected " ++ toString cols.length
          ++ " values, got " ++ toString vals.length)))
    ∧ (∀ (columns : List String) (kvs : List (String × PyValue)) (c : String),
      c ∈ columns → findVal c kvs = Option.none →
      ∃ c2, c2 ∈ columns ∧ findVal c2 kvs = Option.none ∧
        Session.normalizeValues columns (.pydict kvs) =
          .error (.runtimeError ("Missing key for column " ++ c2))) := by
  constructor
  · intro vals cols h
    unfold Ser.valueListSerialize
    rw [if_pos h]
  · intro columns kvs c hc hmiss
    obtain ⟨c2, hm, hmiss2, heq⟩ := lookupCols_missing _ kvs columns c hc hmiss
    exact ⟨c2, hm, hmiss2, heq⟩

/-- C6, witness: a one-value bundle against a zero-column context, and a
one-column context against an empty mapping (the error names the missing
column `a`). -/
theorem c6_witness :
    (([some (Ser.SVal.sint 1)] : List (Option Ser.SVal)).length ≠
        ([] : List Ser.ColumnSpec).length
      ∧ Ser.valueListSerialize [some (Ser.SVal.sint 1)] [] =
          .error (.serializationError
            ("Value count mismatch: expected " ++ toString ([] : List Ser.ColumnSpec).length
              ++ " values, got " ++ toString ([some (Ser.SVal.sint 1)] : List (Option Ser.SVal)).length)))
    ∧ ("a" ∈ ["a"] ∧ findVal "a" [] = Option.none
      ∧ Session.normalizeValues ["a"] (.pydict []) =
          .error (.runtimeError ("Missing key for column " ++ "a"))) := by
  have hpart2 : Session.normalizeValues ["a"] (.pydict []) =
      .error (.runtimeError ("Missing key for column " ++ "a")) := by
    obtain ⟨c2, hm, _, heq⟩ :=
      c6_arity_and_missing_column.2 ["a"] [] "a" (List.mem_cons_self _ _) rfl
    rw [List.mem_singleton.mp hm] at heq
    exact heq
  exact ⟨⟨by decide, c6_arity_and_missing_column.1 _ _ (by decide)⟩,
    ⟨List.mem_cons_self _ _, rfl, hpart2⟩⟩

/- =====================================================================
Claim C7 — the scalar fallback of the value normalizer.
===================================================================== -/

/-- C7, counterexample: with a two-column context, normalizing a bare
scalar does **not** fail with `UnsupportedValueShape` — `_normalize_values`
unconditionally wraps the value as a one-element positional list. -/
theorem c7_counterexample :
    Session.normalizeValues ["a", "b"] (.int 5) = .ok [.int 5] := rfl

/-- C7, amended: a bundle that is neither a sequence, a mapping, a
dataclass, nor an attribute-bearing object is wrapped as a one-element
ordered sequence *regardless of the context's column count* — no
`UnsupportedValueShape` error exists; when the column count differs from
1 the mismatch is only caught later by the arity check of
`SerializedValues.add_row` (`"Wrong length"`). -/
theorem c7_scalar_wrap :
    (∀ (cols : List String) (v : PyValue), Session.isScalarShape v = true →
      Session.normalizeValues cols v = .ok [v])
    ∧ (∀ (sers : List CellW.Ser) (v : PyValue), sers.length ≠ 1 →
      CellW.addRow [v] sers = .error (.serializationError "Wrong length")) := by
  constructor
  · intro cols v hv
    cases v <;> simp_all [Session.isScalarShape, Session.normalizeValues]
  · intro sers v h
    simp [CellW.addRow]
    omega

/-- C7, witness for the amended theorem at a concrete scalar and a
two-column context. -/
theorem c7_witness :
    Session.isScalarShape (.str "x") = true
    ∧ Session.normalizeValues ["a", "b"] (.str "x") = .ok [.str "x"]
    ∧ ([CellW.Ser.int, CellW.Ser.int] : List CellW.Ser).length ≠ 1
    ∧ CellW.addRow [.str "x"] [CellW.Ser.int, CellW.Ser.int] =
        .error (.serializationError "Wrong length") :=
  ⟨rfl, c7_scalar_wrap.1 ["a", "b"] (.str "x") rfl, by decide,
    c7_scalar_wrap.2 [CellW.Ser.int, CellW.Ser.int] (.str "x") (by decide)⟩

/- =====================================================================
Shared lemmas about the cell-writer UDT serializer.
===================================================================== -/

/-- If the per-field cell list is defined, the UDT field loop emits its
concatenation. -/
theorem cwUdtBody_of_cells :
    ∀ (fields : List (String × CellW.Ser)) (fv : List (String × PyValue))
      (cells : List (List Nat)),
      cwUdtCells fields fv = .ok cells →
      CellW.cwUdtBody fields fv = .ok cells.flatten := by
  intro fields
  induction fields with
  | nil =>
    intro fv cells hc
    simp [cwUdtCells] at hc
    subst hc
    simp [CellW.cwUdtBody]
  | cons p rest ih =>
    intro fv cells hc
    obtain ⟨n, s⟩ := p
    unfold cwUdtCells at hc
    unfold CellW.cwUdtBody
    cases hf : findVal n fv with
    | none =>
      rw [hf] at hc
      dsimp only at hc ⊢
      cases hr : cwUdtCells rest fv with
      | error e => rw [hr] at hc; simp at hc
      | ok cs =>
        rw [hr] at hc
        simp at hc
        subst hc
        rw [ih fv cs hr]
        simp
    | some v =>
      rw [hf] at hc
      dsimp only at hc ⊢
      cases hsv : CellW.serialize s v with
      | error e => rw [hsv] at hc; simp at hc
      | ok c =>
        rw [hsv] at hc
        cases hr : cwUdtCells rest fv with
        | error e => rw [hr] at hc; simp at hc
        | ok cs =>
          rw [hr] at hc
          simp at hc
          subst hc
          rw [ih fv cs hr]
          simp

/-- Shape of the per-field cell list: one cell per declared field, in
declaration order; a field absent from the mapping owns the null cell and
a present field owns its value's serialized cell. -/
theorem cwUdtCells_spec :
    ∀ (fields : List (String × CellW.Ser)) (fv : List (String × PyValue))
      (cells : List (List Nat)),
      cwUdtCells fields fv = .ok cells →
      cells.length = fields.length
      ∧ ∀ p ∈ fields.zip cells,
          (findVal p.1.1 fv = Option.none → p.2 = nullCell)
          ∧ ∀ v, findVal p.1.1 fv = some v → CellW.serialize p.1.2 v = .ok p.2 := by
  intro fields
  induction fields with
  | nil =>
    intro fv cells hc
    simp [cwUdtCells] at hc
    subst hc
    simp
  | cons p rest ih =>
    intro fv cells hc
    obtain ⟨n, s⟩ := p
    unfold cwUdtCells at hc
    cases hf : findVal n fv with
    | none =>
      rw [hf] at hc
      dsimp only at hc
      cases hr : cwUdtCells rest fv with
      | error e => rw [hr] at hc; simp at hc
      | ok cs =>
        rw [hr] at hc
        simp at hc
        subst hc
        obtain ⟨ihlen, ihmem⟩ := ih fv cs hr
        refine ⟨by simp [ihlen], ?_⟩
        intro q hq
        rcases List.mem_cons.mp hq with h | h
        · subst h
          exact ⟨fun _ => rfl, fun v hv => by rw [hf] at hv; cases hv⟩
        · exact ihmem q h
    | some v =>
      rw [hf] at hc
      dsimp only at hc
      cases hsv : CellW.serialize s v with
      | error e => rw [hsv] at hc; simp at hc
      | ok c =>
        rw [hsv] at hc
        cases hr : cwUdtCells rest fv with
        | error e => rw [hr] at hc; simp at hc
        | ok cs =>
          rw [hr] at hc
          simp at hc
          subst hc
          obtain ⟨ihlen, ihmem⟩ := ih fv cs hr
          refine ⟨by simp [ihlen], ?_⟩
          intro q hq
          rcases List.mem_cons.mp hq with h | h
          · subst h
            refine ⟨fun hnone => ?_, fun v2 hv2 => ?_⟩
            · rw [hf] at hnone; cases hnone
            · rw [hf] at hv2
              cases hv2
              exact hsv
          · exact ihmem q h

/-- `UDTSerializer.serialize_value` on a dict value is the length-prefixed
concatenation of the per-field cells. -/
theorem cellw_udt_dict (fields : List (String × CellW.Ser))
    (kvs : List (String × PyValue)) (cells : List (List Nat))
    (hc : cwUdtCells fields kvs = .ok cells) :
    CellW.serializeValue (.udt fields) (.pydict kvs) =
      .ok (CellW.setValue cells.flatten) := by
  unfold CellW.serializeValue
  dsimp only
  rw [cwUdtBody_of_cells fields kvs cells hc]
  rfl

/-- When every declared field is absent from the mapping, the per-field
cells are all null cells. -/
theorem cwUdtCells_all_missing :
    ∀ (fields : List (String × CellW.Ser)) (fv : List (String × PyValue)),
      (∀ p ∈ fields, findVal p.1 fv = Option.none) →
      cwUdtCells fields fv = .ok (List.replicate fields.length nullCell) := by
  intro fields
  induction fields with
  | nil => intro fv _; simp [cwUdtCells, List.replicate]
  | cons p rest ih =>
    intro fv hall
    obtain ⟨n, s⟩ := p
    unfold cwUdtCells
    rw [hall (n, s) (List.mem_cons_self _ _)]
    rw [ih fv (fun q hq => hall q (List.mem_cons_of_mem _ hq))]
    simp [List.replicate_succ]

/-- The attribute-extraction loop fails with `UDT missing field` at some
declared field whose attribute is absent, whenever one exists. -/
theorem cellw_extractAttrs_missing :
    ∀ (fields : List (String × CellW.Ser)) (attrs : List (String × PyValue))
      (n : String) (s : CellW.Ser), (n, s) ∈ fields →
      findVal n attrs = Option.none →
      ∃ n2, (∃ s2, (n2, s2) ∈ fields) ∧ findVal n2 attrs = Option.none ∧
        CellW.extractAttrs attrs fields =
          .error (.serializationError ("UDT missing field: " ++ n2)) := by
  intro fields
  induction fields with
  | nil => intro attrs n s h _; cases h
  | cons p rest ih =>
    intro attrs n s hmem hmiss
    obtain ⟨n0, s0⟩ := p
    cases hf : findVal n0 attrs with
    | none =>
      refine ⟨n0, ⟨s0, List.mem_cons_self _ _⟩, hf, ?_⟩
      unfold CellW.extractAttrs
      rw [hf]
    | some v =>
      have hmr : (n, s) ∈ rest := by
        rcases List.mem_cons.mp hmem with h | h
        · exfalso
          injection h with h1 h2
          subst h1
          rw [hmiss] at hf
          cases hf
        · exact h
      obtain ⟨n2, ⟨s2, hs2⟩, hmiss2, heq⟩ := ih attrs n s hmr hmiss
      refine ⟨n2, ⟨s2, List.mem_cons_of_mem _ hs2⟩, hmiss2, ?_⟩
      unfold CellW.extractAttrs
      rw [hf, heq]
      rfl

/- =====================================================================
Shared lemmas for row-level loops.
===================================================================== -/

/-- `TypeSerializer.serialize` turns `None` into the null cell for every
serializer. -/
theorem cellw_serialize_none (c : CellW.Ser) :
    CellW.serialize c .none = .ok nullCell := by
  unfold CellW.serialize
  rfl

/-- `serialize_with_length` turns `None` into the null cell for every
serializer. -/
theorem slz_swl_none (s : SLZ.TySer) :
    SLZ.serializeWithLength s .none = .ok nullCell := by
  unfold SLZ.serializeWithLength
  rfl

/-- The serializalize per-column loop over `n` `None` values and `n` Int
columns: all cells are null cells. -/
theorem slz_columns_replicate : ∀ (n i : Nat),
    SLZ.serializeColumns i (List.replicate n PyValue.none)
      (List.replicate n ("c", SLZ.TySer.int)) =
      .ok (List.replicate n nullCell).flatten := by
  intro n
  induction n with
  | zero => intro i; simp [SLZ.serializeColumns, List.replicate]
  | succ m ih =>
    intro i
    rw [List.replicate_succ, List.replicate_succ,
      List.replicate_succ (n := m) (a := nullCell)]
    unfold SLZ.serializeColumns
    rw [slz_swl_none, ih (i + 1)]
    simp

/-- The `add_row` per-column loop over `n` `None` values: all null cells. -/
theorem cellw_addRowCells_replicate : ∀ (n : Nat),
    CellW.addRowCells (List.replicate n PyValue.none)
      (List.replicate n CellW.Ser.int) =
      .ok (List.replicate n nullCell).flatten := by
  intro n
  induction n with
  | zero => simp [CellW.addRowCells, List.replicate]
  | succ m ih =>
    rw [List.replicate_succ, List.replicate_succ,
      List.replicate_succ (n := m) (a := nullCell)]
    unfold CellW.addRowCells
    rw [cellw_serialize_none, ih]
    simp

/-- The `ValueList.serialize` per-column loop over `n` wrapped `Int(1)`
values against `n` Int columns. -/
theorem ser_valueListCells_replicate : ∀ (n i : Nat),
    Ser.valueListCells i (List.replicate n (some (Ser.SVal.sint 1)))
      (List.replicate n ⟨"c", CColumnType.native .INT⟩) =
      .ok (List.replicate n (i32be 4 ++ i32be 1)).flatten := by
  intro n
  induction n with
  | zero => intro i; simp [Ser.valueListCells, List.replicate]
  | succ m ih =>
    intro i
    rw [List.replicate_succ, List.replicate_succ,
      List.replicate_succ (n := m) (a := i32be 4 ++ i32be 1)]
    unfold Ser.valueListCells
    dsimp only
    rw [ser_sint_cell 1 .INT (by norm_num) (by norm_num), ih (i + 1)]
    simp

/-- A nonempty replicate is not `isEmpty`. -/
theorem replicate_not_isEmpty {α : Type} (x : α) (n : Nat) (h : 0 < n) :
    (List.replicate n x).isEmpty = false := by
  cases n with
  | zero => omega
  | succ m => rw [List.replicate_succ]; rfl

/- =====================================================================
Claim C1 — the UDT null-for-missing-field policy.
===================================================================== -/

/-- C1, counterexample: in the serializalize path (cited by the claim), a
mapping that omits a declared UDT field is **rejected** — the field loop of
`UDTSerializer.serialize_raw` raises `UDT missing required field` instead
of encoding a null cell. -/
theorem c1_counterexample :
    SLZ.serializeRaw (.udt [("f", .int)]) (.pydict []) =
      .error (.serializationError "UDT missing required field: f") := by
  simp [SLZ.serializeRaw, SLZ.udtRaw, findVal]

/-- C1, amended: in the cell-writer UDT serializer (serializer.py, the
live session path), serializing a mapping encodes one length-prefixed cell
per declared field, in schema declaration order, and a declared field
absent from the mapping is encoded as a null cell rather than rejected;
the serializalize and serialize/serialize.py UDT serializers instead
reject a mapping that misses a declared field with a
missing-required-field error. -/
theorem c1_udt_null_for_missing :
    ∀ (fields : List (String × CellW.Ser)) (kvs : List (String × PyValue))
      (cells : List (List Nat)), cwUdtCells fields kvs = .ok cells →
      CellW.serializeValue (.udt fields) (.pydict kvs) =
        .ok (CellW.setValue cells.flatten)
      ∧ cells.length = fields.length
      ∧ ∀ p ∈ fields.zip cells,
          (findVal p.1.1 kvs = Option.none → p.2 = nullCell)
          ∧ ∀ v, findVal p.1.1 kvs = some v →
              CellW.serialize p.1.2 v = .ok p.2 := by
  intro fields kvs cells hc
  obtain ⟨hlen, hmem⟩ := cwUdtCells_spec fields kvs cells hc
  exact ⟨cellw_udt_dict fields kvs cells hc, hlen, hmem⟩

/-- C1, witness: a two-field UDT (`a int, b text`) given only `b`: the
whole cell encodes, the cell list has one cell per field, the cell of the
missing field `a` is the null cell, and the cell of the present field `b`
is its serialized text. -/
theorem c1_witness :
    cwUdtCells [("a", CellW.Ser.int), ("b", CellW.Ser.text)] [("b", .str "x")] =
      .ok [nullCell, [0, 0, 0, 1, 120]]
    ∧ CellW.serializeValue (.udt [("a", CellW.Ser.int), ("b", CellW.Ser.text)])
        (.pydict [("b", .str "x")]) =
      .ok (CellW.setValue ([nullCell, [0, 0, 0, 1, 120]] : List (List Nat)).flatten)
    ∧ ([nullCell, [0, 0, 0, 1, 120]] : List (List Nat)).length =
        ([("a", CellW.Ser.int), ("b", CellW.Ser.text)] : List (String × CellW.Ser)).length
    ∧ CellW.serialize CellW.Ser.text (.str "x") = .ok [0, 0, 0, 1, 120] := by
  have hcell : CellW.serialize CellW.Ser.text (.str "x") = .ok [0, 0, 0, 1, 120] := by
    unfold CellW.serialize CellW.serializeValue
    rfl
  have hc : cwUdtCells [("a", CellW.Ser.int), ("b", CellW.Ser.text)] [("b", .str "x")] =
      .ok [nullCell, [0, 0, 0, 1, 120]] := by
    unfold cwUdtCells cwUdtCells cwUdtCells
    rw [show findVal "a" [("b", PyValue.str "x")] = Option.none from rfl,
      show findVal "b" [("b", PyValue.str "x")] = some (.str "x") from rfl]
    dsimp only
    rw [hcell]
    rfl
  obtain ⟨h1, h2, h3⟩ := c1_udt_null_for_missing _ _ _ hc
  have hb : CellW.serialize CellW.Ser.text (.str "x") = .ok [0, 0, 0, 1, 120] :=
    (h3 (("b", CellW.Ser.text), [0, 0, 0, 1, 120])
      (List.mem_cons_of_mem _ (List.mem_cons_self _ _))).2 (.str "x") rfl
  exact ⟨hc, h1, h2, hb⟩

/- =====================================================================
Claim C10 — mapping values vs attribute-introspected records in the
cell-writer UDT serializer.
===================================================================== -/

/-- C10: in the cell-writer UDT serializer, the null-for-missing-field
policy applies to mapping-shaped values only: a dict omitting every
declared field still encodes (all null cells), while a non-dict object
without `to_dict` that lacks an attribute for some declared field fails
with `UDT missing field` (the attribute-extraction loop runs before the
value builder is created, so no field cell is written). -/
theorem c10_udt_dict_vs_object :
    (∀ (fields : List (String × CellW.Ser)) (kvs : List (String × PyValue)),
      (∀ p ∈ fields, findVal p.1 kvs = Option.none) →
      CellW.serializeValue (.udt fields) (.pydict kvs) =
        .ok (CellW.setValue (List.replicate fields.length nullCell).flatten))
    ∧ (∀ (fields : List (String × CellW.Ser)) (attrs : List (String × PyValue))
        (n : String) (s : CellW.Ser), (n, s) ∈ fields →
      findVal n attrs = Option.none →
      ∃ n2, (∃ s2, (n2, s2) ∈ fields) ∧ findVal n2 attrs = Option.none ∧
        CellW.serializeValue (.udt fields) (.obj Option.none attrs) =
          .error (.serializationError ("UDT missing field: " ++ n2))) := by
  constructor
  · intro fields kvs hall
    exact cellw_udt_dict fields kvs _ (cwUdtCells_all_missing fields kvs hall)
  · intro fields attrs n s hmem hmiss
    obtain ⟨n2, hs2, hmiss2, heq⟩ :=
      cellw_extractAttrs_missing fields attrs n s hmem hmiss
    refine ⟨n2, hs2, hmiss2, ?_⟩
    unfold CellW.serializeValue
    dsimp only
    rw [heq]
    rfl

/-- C10, witness: a one-field UDT given a dict with an unrelated key
(null cell written) and an attribute-less object (error naming the field
`a`). -/
theorem c10_witness :
    (findVal "a" [("b", PyValue.int 1)] = Option.none
      ∧ CellW.serializeValue (.udt [("a", CellW.Ser.int)]) (.pydict [("b", .int 1)]) =
          .ok (CellW.setValue
            (List.replicate ([("a", CellW.Ser.int)] : List (String × CellW.Ser)).length
              nullCell).flatten))
    ∧ (("a", CellW.Ser.int) ∈ ([("a", CellW.Ser.int)] : List (String × CellW.Ser))
      ∧ findVal "a" ([] : List (String × PyValue)) = Option.none
      ∧ CellW.serializeValue (.udt [("a", CellW.Ser.int)]) (.obj Option.none []) =
          .error (.serializationError ("UDT missing field: " ++ "a"))) := by
  have hall : ∀ p ∈ ([("a", CellW.Ser.int)] : List (String × CellW.Ser)),
      findVal p.1 [("b", PyValue.int 1)] = Option.none := by
    intro p hp
    rcases List.mem_cons.mp hp with h | h
    · subst h; rfl
    · cases h
  have hpart2 : CellW.serializeValue (.udt [("a", CellW.Ser.int)]) (.obj Option.none []) =
      .error (.serializationError ("UDT missing field: " ++ "a")) := by
    obtain ⟨n2, ⟨s2, hmem2⟩, _, heq⟩ :=
      c10_udt_dict_vs_object.2 [("a", CellW.Ser.int)] [] "a" CellW.Ser.int
        (List.mem_cons_self _ _) rfl
    have hpair := List.mem_singleton.mp hmem2
    injection hpair with h1 _
    rw [h1] at heq
    exact heq
  exact ⟨⟨rfl, c10_udt_dict_vs_object.1 _ _ hall⟩,
    ⟨List.mem_cons_self _ _, rfl, hpart2⟩⟩

/- =====================================================================
Claim C9 — the 16-bit element-count bound of the row encoder.
===================================================================== -/

/-- C9, counterexample: the serializalize module-level `serialize` (cited
by the claim) performs **no** element-count validation after writing the
columns — with 65536 columns it returns a buffer and the out-of-u16-range
count 65536 instead of failing. -/
theorem c9_counterexample :
    SLZ.serialize (List.replicate 65536 PyValue.none)
      (List.replicate 65536 ("c", SLZ.TySer.int)) =
      .ok ((List.replicate 65536 nullCell).flatten, 65536) := by
  unfold SLZ.serialize
  rw [if_neg (by simp only [List.length_replicate]; omega)]
  rw [if_neg (by rw [replicate_not_isEmpty _ _ (by norm_num)]; decide)]
  rw [slz_columns_replicate 65536 0, exceptOkBind]
  simp only [List.length_replicate]

/-- C9, amended: the u16-range validation exists in
`SerializedValues.add_row` (as a `RuntimeError` re-wrapped into
`SerializationError("Serialization failed: ...")`) and in
`ValueList.serialize` (as a `SerializationError`), but not in the
serializalize `serialize` function, and the raised errors carry a
u16-range message rather than one literally named `TooManyColumns`. -/
theorem c9_u16_count_check :
    (∀ n : Nat, 65535 < n →
      CellW.addRow (List.replicate n PyValue.none) (List.replicate n CellW.Ser.int) =
        .error (.wrapped "Serialization failed"
          (.runtimeError ("Element count must be in u16 range (0-65535), got "
            ++ toString n))))
    ∧ (∀ n : Nat, 65535 < n →
      Ser.valueListSerialize (List.replicate n (some (Ser.SVal.sint 1)))
        (List.replicate n ⟨"c", CColumnType.native .INT⟩) =
        .error (.serializationError ("Element count must be in u16 range (0-65535), got "
          ++ toString n))) := by
  constructor
  · intro n hn
    unfold CellW.addRow
    rw [if_neg (by simp)]
    rw [if_neg (by rw [replicate_not_isEmpty _ _ (by omega)]; simp)]
    rw [cellw_addRowCells_replicate n]
    simp only [List.length_replicate]
    rw [if_pos hn]
  · intro n hn
    unfold Ser.valueListSerialize
    rw [if_neg (by simp)]
    rw [ser_valueListCells_replicate n 0, exceptOkBind]
    simp only [List.length_replicate]
    rw [if_pos hn]

/-- C9, witness for the amended theorem at 65536 columns. -/
theorem c9_witness :
    (65535 < 65536
      ∧ CellW.addRow (List.replicate 65536 PyValue.none)
          (List.replicate 65536 CellW.Ser.int) =
        .error (.wrapped "Serialization failed"
          (.runtimeError ("Element count must be in u16 range (0-65535), got "
            ++ toString (65536 : Nat)))))
    ∧ Ser.valueListSerialize (List.replicate 65536 (some (Ser.SVal.sint 1)))
        (List.replicate 65536 ⟨"c", CColumnType.native .INT⟩) =
        .error (.serializationError ("Element count must be in u16 range (0-65535), got "
          ++ toString (65536 : Nat))) :=
  ⟨⟨by decide, c9_u16_count_check.1 65536 (by decide)⟩,
    c9_u16_count_check.2 65536 (by decide)⟩

/- =====================================================================
Claim C8 — native integer overflow and big-endian encoding.
===================================================================== -/

/-- C8: for the Int32 serializers, a value outside `[-2^31, 2^31-1]` fails
with the overflow error (in serializalize's `IntSerializer.serialize_raw`
and in `Int.__init__` of serialize.py; the claim's example input
2147483648 is an instance), while an in-range value is encoded as exactly
4 bytes of big-endian two's complement (`twosDecode` recovers the value);
likewise for Int64 at 8 bytes, where 2^63 = 9223372036854775808 overflows.
The cell-writer `IntSerializer.serialize_value` writes the same 4 payload
bytes behind a length prefix of 4. -/
theorem c8_int_overflow_and_encoding : ∀ v : Int,
    ((-2147483648 ≤ v ∧ v ≤ 2147483647) →
      SLZ.serializeRaw .int (.int v) = .ok (i32be v)
      ∧ CellW.serializeValue .int (.int v) = .ok (i32be 4 ++ i32be v)
      ∧ (i32be v).length = 4 ∧ twosDecode 4 (i32be v) = v)
    ∧ (¬(-2147483648 ≤ v ∧ v ≤ 2147483647) →
      SLZ.serializeRaw .int (.int v) =
        .error (.serializationError ("Int32 overflow: " ++ toString v))
      ∧ Ser.IntInit v = .error (.typeCheckError ("Int overflow: " ++ toString v)))
    ∧ ((-9223372036854775808 ≤ v ∧ v ≤ 9223372036854775807) →
      SLZ.serializeRaw .bigint (.int v) = .ok (i64be v)
      ∧ (i64be v).length = 8 ∧ twosDecode 8 (i64be v) = v)
    ∧ (¬(-9223372036854775808 ≤ v ∧ v ≤ 9223372036854775807) →
      SLZ.serializeRaw .bigint (.int v) =
        .error (.serializationError ("Int64 overflow: " ++ toString v))
      ∧ Ser.BigIntInit v = .error (.typeCheckError ("BigInt overflow: " ++ toString v))) := by
  intro v
  refine ⟨?_, ?_, ?_, ?_⟩
  · intro h
    refine ⟨?_, ?_, i32be_length v, twosDecode_i32be v h.1 h.2⟩
    · unfold SLZ.serializeRaw
      simp only [pyInt, exceptOkBind]
      rw [if_pos h]
      unfold structPackI32
      rw [if_pos h]
    · unfold CellW.serializeValue
      simp only [pyInt, exceptOkBind]
      rw [if_pos h]
      unfold structPackI32
      rw [if_pos h]
      simp only [exceptOkBind, CellW.setValue, i32be_length]
      norm_cast
  · intro h
    constructor
    · unfold SLZ.serializeRaw
      simp only [pyInt, exceptOkBind]
      rw [if_neg h]
    · unfold Ser.IntInit
      rw [if_neg h]
  · intro h
    refine ⟨?_, i64be_length v, twosDecode_i64be v h.1 h.2⟩
    unfold SLZ.serializeRaw
    simp only [pyInt, exceptOkBind]
    rw [if_pos h]
    unfold structPackI64
    rw [if_pos h]
  · intro h
    constructor
    · unfold SLZ.serializeRaw
      simp only [pyInt, exceptOkBind]
      rw [if_neg h]
    · unfold Ser.BigIntInit
      rw [if_neg h]

/-- C8, witness: the in-range value 5, the claim's Int32 overflow input
2147483648, and the claim's Int64 overflow input 2^63. -/
theorem c8_witness :
    ((-2147483648 ≤ (5 : Int) ∧ (5 : Int) ≤ 2147483647)
      ∧ SLZ.serializeRaw .int (.int 5) = .ok (i32be 5)
      ∧ CellW.serializeValue .int (.int 5) = .ok (i32be 4 ++ i32be 5)
      ∧ (i32be 5).length = 4 ∧ twosDecode 4 (i32be 5) = 5)
    ∧ (¬(-2147483648 ≤ (2147483648 : Int) ∧ (2147483648 : Int) ≤ 2147483647)
      ∧ SLZ.serializeRaw .int (.int 2147483648) =
          .error (.serializationError ("Int32 overflow: " ++ toString (2147483648 : Int)))
      ∧ Ser.IntInit 2147483648 =
          .error (.typeCheckError ("Int overflow: " ++ toString (2147483648 : Int))))
    ∧ (¬(-9223372036854775808 ≤ (9223372036854775808 : Int)
          ∧ (9223372036854775808 : Int) ≤ 9223372036854775807)
      ∧ SLZ.serializeRaw .bigint (.int 9223372036854775808) =
          .error (.serializationError ("Int64 overflow: " ++ toString (9223372036854775808 : Int)))
      ∧ Ser.BigIntInit 9223372036854775808 =
          .error (.typeCheckError ("BigInt overflow: " ++ toString (9223372036854775808 : Int)))) := by
  have h5 : -2147483648 ≤ (5 : Int) ∧ (5 : Int) ≤ 2147483647 := by norm_num
  have h32 : ¬(-2147483648 ≤ (2147483648 : Int) ∧ (2147483648 : Int) ≤ 2147483647) := by
    norm_num
  have h64 : ¬(-9223372036854775808 ≤ (9223372036854775808 : Int)
      ∧ (9223372036854775808 : Int) ≤ 9223372036854775807) := by norm_num
  obtain ⟨ha, hb, hc, hd⟩ := (c8_int_overflow_and_encoding 5).1 h5
  obtain ⟨he, hf⟩ := (c8_int_overflow_and_encoding 2147483648).2.1 h32
  obtain ⟨hg, hh⟩ := (c8_int_overflow_and_encoding 9223372036854775808).2.2.2 h64
  exact ⟨⟨h5, ha, hb, hc, hd⟩, ⟨h32, he, hf⟩, ⟨h64, hg, hh⟩⟩

/- =====================================================================
Claim C2 — exactness of the type check.
===================================================================== -/

/-- C2, counterexample: a textual value supplied for an Int column does
**not** raise a type-check error — `IntSerializer.serialize_raw` coerces
it with `int(value)` and happily encodes `"5"` as the 4-byte integer 5. -/
theorem c2_counterexample :
    SLZ.serializeRaw .int (.str "5") = .ok [0, 0, 0, 5] := by
  simp [SLZ.serializeRaw, pyInt]
  rfl

/-- C2, amended: the serializer branches coerce instead of type-checking:
a decimal string is accepted by the Int serializer (via `int(value)`), any
value at all is accepted by the Text serializer (via `str(value)`), and
the `exact_type_check_native` helper of serialize.py only checks that the
column type is *some* `Native` kind — it accepts every combination of
actual and expected native kinds, so no exact-kind mismatch is ever
raised. -/
theorem c2_coercion_not_exact_check :
    (∀ (s : String) (n : Int), strToInt? s = some n →
      -2147483648 ≤ n → n ≤ 2147483647 →
      SLZ.serializeRaw .int (.str s) = .ok (i32be n))
    ∧ (∀ a k : CNativeType, Ser.exactTypeCheckNative (.native a) k = .ok ())
    ∧ (∀ i : Int, CellW.serializeValue .text (.int i) =
        .ok (CellW.setValue (utf8Bytes (toString i)))) := by
  refine ⟨?_, ?_, ?_⟩
  · intro s n hs h1 h2
    simp [SLZ.serializeRaw, pyInt, hs, structPackI32, h1, h2]
  · intro a k
    rfl
  · intro i
    simp [CellW.serializeValue, pyStr, pyRepr]

/-- C2, witness: the coercions at concrete inputs — `"7"` into an Int
column, a Text wrapper checked against an Int column, the integer 3 into a
Text column. -/
theorem c2_witness :
    strToInt? "7" = some 7
    ∧ SLZ.serializeRaw .int (.str "7") = .ok (i32be 7)
    ∧ Ser.exactTypeCheckNative (.native .TEXT) .INT = .ok ()
    ∧ CellW.serializeValue .text (.int 3) =
        .ok (CellW.setValue (utf8Bytes (toString (3 : Int)))) :=
  ⟨rfl, c2_coercion_not_exact_check.1 "7" 7 rfl (by decide) (by decide),
    c2_coercion_not_exact_check.2.1 .TEXT .INT,
    c2_coercion_not_exact_check.2.2 3⟩

end PyRS
